import Mathlib

/-!
Shallow embedding of the conversation-state and LLM-request orchestration
logic of a Telegram relay bot (source files `src/handlers.py`, `src/llm.py`).

Modelling conventions:
* A Python message dict `{"role": r, "content": c}` is a `Turn`.
* The two module-level dicts `conversation_history` / `conversation_meta`
  are total functions `Int → Option _` (Telegram chat ids are integers).
* Environment configuration (`CONVERSATION_HISTORY_LIMIT`,
  `LLM_RETRY_ATTEMPTS`, `SYSTEM_PROMPT`, `OPENROUTER_API_KEY`) is passed as
  explicit parameters; the integer limits are modelled as `Nat`
  (nonnegative configured values).  `model`, `temperature` and
  `max_tokens` are forwarded opaquely to the remote call and play no role
  in any control flow, so they are not modelled.
* The remote completion service is an oracle `Nat → Except Nat String`
  giving the outcome of the i-th attempt (1-based): `.error code` for a
  raised exception, `.ok text` for a reply.
* `datetime.now().isoformat()` is an opaque `String` parameter `now`.
* Python exceptions become `Except`; the single-writer / single-threaded
  execution of one handler call is modelled as a pure state transformer.
-/

deriving instance DecidableEq for Except

/-- Role string of a message dict: `"system"`, `"user"` or `"assistant"`. -/
inductive Role where
  | system : Role
  | user : Role
  | assistant : Role
deriving DecidableEq, Repr

/-- One message dict `{"role": ..., "content": ...}`. -/
structure Turn where
  role : Role
  content : String
deriving DecidableEq, Repr

/-- Errors a call into `llm.py` can surface:
`valueError` is the `ValueError("OPENROUTER_API_KEY is required")` raised by
`get_llm_client`; `apiError c` is an exception (opaque code `c`) raised by
`client.chat.completions.create`; `raiseNone` is the `raise last_error`
executed with `last_error` still `None` (only possible when
`retry_attempts = 0`, where Python would raise a `TypeError`). -/
inductive PyError where
  | valueError : PyError
  | apiError : Nat → PyError
  | raiseNone : PyError
deriving DecidableEq, Repr

/-! ## `llm.py` — `get_llm_client` -/

/-- `get_llm_client` (src/llm.py lines 17-41): reads `OPENROUTER_API_KEY`
from the environment (`none` when unset) and raises `ValueError` when the
key is falsy (`None` or the empty string); otherwise the configured client
is available.  The lazily memoised global `_client` is idempotent, so the
memoisation itself is not modelled. -/
def get_llm_client (apiKey : Option String) : Except PyError Unit :=
  match apiKey with
  | none => .error .valueError
  | some k => if k = "" then .error .valueError else .ok ()

/-! ## `llm.py` — message assembly in `get_llm_response` -/

/-- Python's `history[-limit:] if len(history) > limit else history`
(src/llm.py line 78).  For `limit > 0` the negative slice keeps the last
`limit` entries; for `limit = 0` the slice `history[-0:]` is `history[0:]`,
i.e. the *whole* list. -/
def limitSlice (history : List Turn) (limit : Nat) : List Turn :=
  if history.length > limit then
    if limit = 0 then history else history.drop (history.length - limit)
  else history

/-- The two local variables of the message-assembly block of
`get_llm_response`: the `history` argument and the `messages` list being
built.  Threading `history` through every statement makes the frame
property (the code never writes to `history`) a provable statement. -/
structure MsgBuild where
  history : List Turn
  messages : List Turn
deriving DecidableEq, Repr

/-- `messages = [{"role": "system", "content": system_prompt}]`
(src/llm.py line 72). -/
def stInitMessages (systemPrompt : String) (history : List Turn) : MsgBuild :=
  { history := history, messages := [⟨Role.system, systemPrompt⟩] }

/-- `if history: limited_history = ...; messages.extend(limited_history)`
(src/llm.py lines 75-80); the guard `if history:` is true exactly when the
list is nonempty (the `None` default never reaches here from the handler). -/
def stExtendHistory (historyLimit : Nat) (b : MsgBuild) : MsgBuild :=
  if b.history = [] then b
  else { b with messages := b.messages ++ limitSlice b.history historyLimit }

/-- `messages.append({"role": "user", "content": user_message})`
(src/llm.py line 83). -/
def stAppendUser (userMessage : String) (b : MsgBuild) : MsgBuild :=
  { b with messages := b.messages ++ [⟨Role.user, userMessage⟩] }

/-- The full message-assembly block of `get_llm_response`, statement by
statement. -/
def buildRun (userMessage systemPrompt : String) (history : List Turn)
    (historyLimit : Nat) : MsgBuild :=
  stAppendUser userMessage (stExtendHistory historyLimit (stInitMessages systemPrompt history))

/-- The `messages` list sent to the completion service. -/
def buildMessages (userMessage systemPrompt : String) (history : List Turn)
    (historyLimit : Nat) : List Turn :=
  (buildRun userMessage systemPrompt history historyLimit).messages

/-! ## `llm.py` — retry loop of `get_llm_response` -/

/-- Outcome of the retry loop together with its observable effects. -/
structure RetryTrace where
  /-- `return assistant_message` or `raise last_error` (`.error none` is
  `raise None`). -/
  result : Except (Option Nat) String
  /-- number of `client.chat.completions.create` calls made. -/
  calls : Nat
  /-- number of `time.sleep(1)` delays performed. -/
  sleeps : Nat
deriving DecidableEq, Repr

/-- `for attempt in range(1, retry_attempts + 1): ...` (src/llm.py lines
88-123) followed by `raise last_error` (line 126).  The argument list holds
the outcomes of the remaining attempts; a failure sleeps exactly when a
further attempt remains (`attempt < retry_attempts`). -/
def retryLoop : List (Except Nat String) → Option Nat → RetryTrace
  | [], lastError => ⟨.error lastError, 0, 0⟩
  | .ok s :: _, _ => ⟨.ok s, 1, 0⟩
  | .error e :: rest, _ =>
    let t := retryLoop rest (some e)
    ⟨t.result, t.calls + 1, t.sleeps + (if rest = [] then 0 else 1)⟩

/-- The outcomes of attempts `1, …, n` drawn from the oracle. -/
def attemptList (oracle : Nat → Except Nat String) (n : Nat) : List (Except Nat String) :=
  (List.range n).map (fun i => oracle (i + 1))

/-! ## `llm.py` — `get_llm_response` -/

/-- Everything observable about one `get_llm_response` call. -/
structure LlmResult where
  /-- the returned reply text, or the raised exception. -/
  result : Except PyError String
  /-- the `messages` list sent on each attempt (empty when the client
  could not be obtained and no request was ever built). -/
  messages : List Turn
  /-- number of remote calls made. -/
  calls : Nat
  /-- number of `time.sleep(1)` delays performed. -/
  sleeps : Nat
  /-- final value of the `history` argument after the call (the source
  contains no statement writing to it; modelled by threading it through
  the assembly block). -/
  historyAfter : List Turn
deriving DecidableEq, Repr

/-- `get_llm_response` (src/llm.py lines 44-126): obtain the client (raises
when the credential is missing), assemble `messages`, then retry the remote
call up to `retryAttempts` times, re-raising the last error on exhaustion. -/
def get_llm_response (apiKey : Option String) (userMessage systemPrompt : String)
    (history : List Turn) (historyLimit retryAttempts : Nat)
    (oracle : Nat → Except Nat String) : LlmResult :=
  match get_llm_client apiKey with
  | .error e => ⟨.error e, [], 0, 0, history⟩
  | .ok _ =>
    let b := buildRun userMessage systemPrompt history historyLimit
    let t := retryLoop (attemptList oracle retryAttempts) none
    let result : Except PyError String :=
      match t.result with
      | .ok s => .ok s
      | .error (some e) => .error (.apiError e)
      | .error none => .error .raiseNone
    ⟨result, b.messages, t.calls, t.sleeps, b.history⟩

/-! ## `handlers.py` — conversation store and handlers -/

/-- One entry of the `conversation_meta` dict:
`{"username": ..., "started_at": ...}`. -/
structure ConvMeta where
  username : String
  startedAt : String
deriving DecidableEq, Repr

/-- The two module-level dicts of `handlers.py` (lines 20-22):
`conversation_history : dict[int, list[dict]]` and
`conversation_meta : dict[int, dict]`, as total maps from chat id. -/
structure BotState where
  conversation_history : Int → Option (List Turn)
  conversation_meta : Int → Option ConvMeta

/-- The initial state: both dicts empty. -/
def BotState.empty : BotState :=
  ⟨fun _ => none, fun _ => none⟩

/-- `conversation_history[chat_id] = v` (or `del` for `none`). -/
def BotState.setHist (s : BotState) (chatId : Int) (v : Option (List Turn)) : BotState :=
  { s with conversation_history := fun c => if c = chatId then v else s.conversation_history c }

/-- `conversation_meta[chat_id] = v` (or `del` for `none`). -/
def BotState.setMeta (s : BotState) (chatId : Int) (v : Option ConvMeta) : BotState :=
  { s with conversation_meta := fun c => if c = chatId then v else s.conversation_meta c }

/-- The greeting sent by `/start` (src/handlers.py lines 48-53). -/
def greeting (username : String) : String :=
  "Здравствуйте, " ++ username ++ "! 👋\n\n" ++
  "Я бот-ассистент для консультаций. " ++
  "Напишите мне текстовое сообщение, и я отвечу вам.\n\n" ++
  "Используйте /clear для очистки истории диалога."

/-- The confirmation sent by `/clear` (src/handlers.py lines 79-81),
identical on both branches. -/
def clearReply : String :=
  "История диалога очищена. Можем начать с чистого листа! 🔄"

/-- The user-facing apology sent when the LLM call fails
(src/handlers.py lines 144-147). -/
def errorReply : String :=
  "Извините, произошла ошибка при обработке вашего запроса. " ++
  "Попробуйте чуть позже."

/-- `cmd_start` (src/handlers.py lines 25-55): create metadata and an empty
history only when `chat_id not in conversation_meta`, then answer the
greeting.  `username` is the already-resolved display label
(`user.username or user.first_name or "пользователь"`), `now` the
`datetime.now().isoformat()` timestamp. -/
def cmd_start (chatId : Int) (username now : String) (s : BotState) :
    BotState × String :=
  let s' :=
    if (s.conversation_meta chatId).isNone then
      ((s.setMeta chatId (some ⟨username, now⟩)).setHist chatId (some []))
    else s
  (s', greeting username)

/-- `cmd_clear` (src/handlers.py lines 58-81): when
`chat_id in conversation_history`, delete both dict entries (the `del` on
`conversation_meta[chat_id]` raises `KeyError`, modelled as `.error ()`,
if that key is absent — impossible in reachable states); otherwise leave
the state untouched.  The returned `Bool` records which log branch ran
(`true` = "Cleared conversation history", `false` = "No history to
clear"); the confirmation text answered to the user is the same constant
on both branches. -/
def cmd_clear (chatId : Int) (s : BotState) :
    Except Unit (BotState × String × Bool) :=
  match s.conversation_history chatId with
  | some _ =>
    match s.conversation_meta chatId with
    | some _ =>
      .ok ((s.setHist chatId none).setMeta chatId none, clearReply, true)
    | none => .error ()
  | none => .ok (s, clearReply, false)

/-- The `# Initialize history if new user` block of `handle_text`
(src/handlers.py lines 98-105): keyed on
`chat_id not in conversation_history` (unlike `cmd_start`, which keys on
`conversation_meta`). -/
def ensureTextConv (chatId : Int) (username now : String) (s : BotState) : BotState :=
  if (s.conversation_history chatId).isNone then
    ((s.setHist chatId (some [])).setMeta chatId (some ⟨username, now⟩))
  else s

/-- Everything observable about one `handle_text` call. -/
structure TextOutcome where
  state : BotState
  /-- the text answered to the user: the LLM reply on success, the
  apology on failure. -/
  reply : String
  /-- the inner `get_llm_response` call (messages sent, remote calls,
  sleeps, outcome). -/
  llm : LlmResult

/-- `handle_text` (src/handlers.py lines 84-150): ensure the conversation
exists, provisionally append the user turn, call `get_llm_response` with
`conversation_history[chat_id][:-1]`, then either commit the assistant
turn (success) or pop the provisional user turn (failure) and answer the
apology. -/
def handle_text (chatId : Int) (username now text systemPrompt : String)
    (apiKey : Option String) (historyLimit retryAttempts : Nat)
    (oracle : Nat → Except Nat String) (s : BotState) : TextOutcome :=
  let s1 := ensureTextConv chatId username now s
  let h1 := ((s1.conversation_history chatId).getD []) ++ [⟨Role.user, text⟩]
  let s2 := s1.setHist chatId (some h1)
  let r := get_llm_response apiKey text systemPrompt h1.dropLast historyLimit
      retryAttempts oracle
  match r.result with
  | .ok reply =>
    ⟨s2.setHist chatId (some (h1 ++ [⟨Role.assistant, reply⟩])), reply, r⟩
  | .error _ =>
    let cur := (s2.conversation_history chatId).getD []
    let s3 :=
      match cur.getLast? with
      | some t => if t.role = Role.user then s2.setHist chatId (some cur.dropLast) else s2
      | none => s2
    ⟨s3, errorReply, r⟩

/-- States reachable from the empty store by any sequence of handler
invocations (the `/clear` step takes the non-raising outcome, the only one
that occurs in reachable states). -/
inductive Reachable : BotState → Prop
  | init : Reachable BotState.empty
  | start (chatId : Int) (username now : String) (s : BotState) :
      Reachable s → Reachable (cmd_start chatId username now s).1
  | clear (chatId : Int) (s s' : BotState) (reply : String) (deleted : Bool) :
      Reachable s → cmd_clear chatId s = .ok (s', reply, deleted) → Reachable s'
  | text (chatId : Int) (username now text systemPrompt : String)
      (apiKey : Option String) (historyLimit retryAttempts : Nat)
      (oracle : Nat → Except Nat String) (s : BotState) :
      Reachable s →
      Reachable (handle_text chatId username now text systemPrompt apiKey
        historyLimit retryAttempts oracle s).state

/-- The cross-table invariant: an id has a history entry exactly when it
has a metadata entry. -/
def WellFormed (s : BotState) : Prop :=
  ∀ chatId : Int,
    (s.conversation_history chatId).isSome ↔ (s.conversation_meta chatId).isSome

/-- The startup credential check of `main` (src/bot.py lines 44-48): read
`TELEGRAM_BOT_TOKEN` and exit (`sys.exit(1)`, modelled `.error ()`) when it
is falsy.  `OPENROUTER_API_KEY` is never read on the startup path; the
second parameter is taken, and ignored, exactly to state that fact. -/
def bot_startup (botToken : Option String) (openrouterKey : Option String) :
    Except Unit Unit :=
  match botToken, openrouterKey with
  | none, _ => .error ()
  | some t, _ => if t = "" then .error () else .ok ()

/-! ## Lemmas: retry loop -/

theorem retryLoop_calls_all_fail (l : List (Except Nat String)) (last : Option Nat)
    (h : ∀ x ∈ l, ∃ e, x = Except.error e) :
    (retryLoop l last).calls = l.length := by
  induction l generalizing last with
  | nil => rfl
  | cons x rest ih =>
    obtain ⟨e, rfl⟩ := h x (List.mem_cons_self x rest)
    simp only [retryLoop, List.length_cons]
    rw [ih (some e) (fun y hy => h y (List.mem_cons_of_mem _ hy))]

theorem retryLoop_sleeps_all_fail (l : List (Except Nat String)) (last : Option Nat)
    (h : ∀ x ∈ l, ∃ e, x = Except.error e) :
    (retryLoop l last).sleeps = l.length - 1 := by
  induction l generalizing last with
  | nil => rfl
  | cons x rest ih =>
    obtain ⟨e, rfl⟩ := h x (List.mem_cons_self x rest)
    simp only [retryLoop]
    by_cases hr : rest = []
    · subst hr; rfl
    · rw [if_neg hr, ih (some e) (fun y hy => h y (List.mem_cons_of_mem _ hy))]
      have hpos : 0 < rest.length := List.length_pos.mpr hr
      simp only [List.length_cons]
      omega

theorem retryLoop_result_all_fail (l : List (Except Nat String)) (last : Option Nat) (e : Nat)
    (h : ∀ x ∈ l, ∃ c, x = Except.error c)
    (hlast : l.getLast? = some (Except.error e)) :
    (retryLoop l last).result = Except.error (some e) := by
  induction l generalizing last with
  | nil => simp at hlast
  | cons x rest ih =>
    obtain ⟨c, rfl⟩ := h x (List.mem_cons_self x rest)
    simp only [retryLoop]
    cases rest with
    | nil =>
      simp only [List.getLast?_singleton, Option.some.injEq] at hlast
      injection hlast with hce
      subst hce
      rfl
    | cons y t =>
      have hrest : (y :: t).getLast? = some (Except.error e) := by
        rw [← hlast, List.getLast?_cons_cons]
      exact ih (some c) (fun z hz => h z (List.mem_cons_of_mem _ hz)) hrest

theorem attemptList_length (o : Nat → Except Nat String) (n : Nat) :
    (attemptList o n).length = n := by
  simp [attemptList]

theorem attemptList_succ (o : Nat → Except Nat String) (n : Nat) :
    attemptList o (n + 1) = attemptList o n ++ [o (n + 1)] := by
  simp [attemptList, List.range_succ]

theorem attemptList_getLast (o : Nat → Except Nat String) (n : Nat) (hn : 1 ≤ n) :
    (attemptList o n).getLast? = some (o n) := by
  cases n with
  | zero => omega
  | succ m => rw [attemptList_succ, List.getLast?_concat]

theorem attemptList_all_fail (o : Nat → Except Nat String) (n : Nat)
    (h : ∀ i, 1 ≤ i → i ≤ n → ∃ e, o i = Except.error e) :
    ∀ x ∈ attemptList o n, ∃ e, x = Except.error e := by
  intro x hx
  simp only [attemptList, List.mem_map, List.mem_range] at hx
  obtain ⟨i, hi, rfl⟩ := hx
  exact h (i + 1) (by omega) (by omega)

/-! ## Lemmas: `get_llm_response` projections -/

theorem buildRun_history (um sp : String) (h : List Turn) (L : Nat) :
    (buildRun um sp h L).history = h := by
  simp only [buildRun, stAppendUser, stExtendHistory, stInitMessages]
  split <;> rfl

theorem get_llm_response_calls (k um sp : String) (h : List Turn) (L n : Nat)
    (o : Nat → Except Nat String) (hk : ¬k = "") :
    (get_llm_response (some k) um sp h L n o).calls
      = (retryLoop (attemptList o n) none).calls := by
  simp [get_llm_response, get_llm_client, hk]

theorem get_llm_response_sleeps (k um sp : String) (h : List Turn) (L n : Nat)
    (o : Nat → Except Nat String) (hk : ¬k = "") :
    (get_llm_response (some k) um sp h L n o).sleeps
      = (retryLoop (attemptList o n) none).sleeps := by
  simp [get_llm_response, get_llm_client, hk]

theorem get_llm_response_messages (k um sp : String) (h : List Turn) (L n : Nat)
    (o : Nat → Except Nat String) (hk : ¬k = "") :
    (get_llm_response (some k) um sp h L n o).messages = buildMessages um sp h L := by
  simp [get_llm_response, get_llm_client, hk, buildMessages]

theorem get_llm_response_result_err (k um sp : String) (h : List Turn) (L n : Nat)
    (o : Nat → Except Nat String) (e : Nat) (hk : ¬k = "")
    (hr : (retryLoop (attemptList o n) none).result = Except.error (some e)) :
    (get_llm_response (some k) um sp h L n o).result
      = Except.error (PyError.apiError e) := by
  simp [get_llm_response, get_llm_client, hk, hr]

/-! ## Lemmas: message window -/

theorem buildMessages_window (um sp : String) (h : List Turn) (L : Nat) (hL : 1 ≤ L) :
    buildMessages um sp h L
      = ⟨Role.system, sp⟩ :: (h.drop (h.length - min h.length L) ++ [⟨Role.user, um⟩]) := by
  by_cases hh : h = []
  · subst hh
    simp [buildMessages, buildRun, stAppendUser, stExtendHistory, stInitMessages]
  · simp only [buildMessages, buildRun, stAppendUser, stExtendHistory, stInitMessages,
      if_neg hh]
    unfold limitSlice
    by_cases hlen : h.length > L
    · rw [if_pos hlen, if_neg (by omega : ¬L = 0)]
      have hmin : min h.length L = L := Nat.min_eq_right (Nat.le_of_lt hlen)
      rw [hmin]
      simp
    · rw [if_neg hlen]
      have hmin : min h.length L = h.length := Nat.min_eq_left (by omega)
      rw [hmin, Nat.sub_self, List.drop_zero]
      simp

/-! ## Lemmas: `ensureTextConv` and `handle_text` -/

theorem ensureTextConv_hist_self (cid : Int) (u now : String) (s : BotState) :
    (ensureTextConv cid u now s).conversation_history cid
      = some ((s.conversation_history cid).getD []) := by
  unfold ensureTextConv
  cases hs : s.conversation_history cid with
  | none => simp [hs, BotState.setHist, BotState.setMeta]
  | some h => simp [hs, BotState.setHist, BotState.setMeta]

theorem ensureTextConv_of_some (cid : Int) (u now : String) (s : BotState)
    (hh : (s.conversation_history cid).isSome) :
    ensureTextConv cid u now s = s := by
  unfold ensureTextConv
  rw [if_neg]
  simp [Option.isNone_iff_eq_none]
  exact Option.isSome_iff_ne_none.mp hh

theorem ensureTextConv_meta_of_none (cid : Int) (u now : String) (s : BotState)
    (hh : s.conversation_history cid = none) :
    (ensureTextConv cid u now s).conversation_meta cid = some ⟨u, now⟩ := by
  simp [ensureTextConv, hh, BotState.setHist, BotState.setMeta]

theorem ensureTextConv_hist_frame (cid c : Int) (u now : String) (s : BotState)
    (hc : c ≠ cid) :
    (ensureTextConv cid u now s).conversation_history c = s.conversation_history c := by
  unfold ensureTextConv
  split <;> simp [BotState.setHist, BotState.setMeta, hc]

theorem ensureTextConv_meta_frame (cid c : Int) (u now : String) (s : BotState)
    (hc : c ≠ cid) :
    (ensureTextConv cid u now s).conversation_meta c = s.conversation_meta c := by
  unfold ensureTextConv
  split <;> simp [BotState.setHist, BotState.setMeta, hc]

theorem handle_text_llm (cid : Int) (u now text sp : String) (k : Option String)
    (L n : Nat) (o : Nat → Except Nat String) (s : BotState) :
    (handle_text cid u now text sp k L n o s).llm
      = get_llm_response k text sp
          (((ensureTextConv cid u now s).conversation_history cid).getD []) L n o := by
  simp only [handle_text, List.dropLast_concat]
  split <;> rfl

theorem handle_text_hist_of_ok (cid : Int) (u now text sp : String) (k : Option String)
    (L n : Nat) (o : Nat → Except Nat String) (s : BotState) (reply : String)
    (hok : (get_llm_response k text sp
        (((ensureTextConv cid u now s).conversation_history cid).getD []) L n o).result
      = Except.ok reply) :
    (handle_text cid u now text sp k L n o s).state.conversation_history cid
      = some ((((ensureTextConv cid u now s).conversation_history cid).getD [])
          ++ [⟨Role.user, text⟩, ⟨Role.assistant, reply⟩]) := by
  simp only [handle_text, List.dropLast_concat]
  split
  next r hr =>
    rw [hok] at hr
    injection hr with hr
    subst hr
    simp [BotState.setHist]
  next e hr =>
    rw [hok] at hr
    exact Except.noConfusion hr

theorem handle_text_hist_of_error (cid : Int) (u now text sp : String) (k : Option String)
    (L n : Nat) (o : Nat → Except Nat String) (s : BotState) (e : PyError)
    (hfail : (get_llm_response k text sp
        (((ensureTextConv cid u now s).conversation_history cid).getD []) L n o).result
      = Except.error e) :
    (handle_text cid u now text sp k L n o s).state.conversation_history cid
      = (ensureTextConv cid u now s).conversation_history cid := by
  simp only [handle_text, List.dropLast_concat]
  split
  next r hr =>
    rw [hfail] at hr
    exact Except.noConfusion hr
  next e2 hr =>
    simp [BotState.setHist, List.getLast?_concat, List.dropLast_concat,
      ensureTextConv_hist_self]

theorem handle_text_reply_of_ok (cid : Int) (u now text sp : String) (k : Option String)
    (L n : Nat) (o : Nat → Except Nat String) (s : BotState) (reply : String)
    (hok : (get_llm_response k text sp
        (((ensureTextConv cid u now s).conversation_history cid).getD []) L n o).result
      = Except.ok reply) :
    (handle_text cid u now text sp k L n o s).reply = reply := by
  simp only [handle_text, List.dropLast_concat]
  split
  next r hr =>
    rw [hok] at hr
    injection hr with hr
    subst hr
    rfl
  next e hr =>
    rw [hok] at hr
    exact Except.noConfusion hr

theorem handle_text_reply_of_error (cid : Int) (u now text sp : String) (k : Option String)
    (L n : Nat) (o : Nat → Except Nat String) (s : BotState) (e : PyError)
    (hfail : (get_llm_response k text sp
        (((ensureTextConv cid u now s).conversation_history cid).getD []) L n o).result
      = Except.error e) :
    (handle_text cid u now text sp k L n o s).reply = errorReply := by
  simp only [handle_text, List.dropLast_concat]
  split
  next r hr =>
    rw [hfail] at hr
    exact Except.noConfusion hr
  next e2 hr => rfl

theorem handle_text_meta_eq (cid c : Int) (u now text sp : String) (k : Option String)
    (L n : Nat) (o : Nat → Except Nat String) (s : BotState) :
    (handle_text cid u now text sp k L n o s).state.conversation_meta c
      = (ensureTextConv cid u now s).conversation_meta c := by
  simp only [handle_text, List.dropLast_concat]
  split
  · simp [BotState.setHist]
  · simp only [BotState.setHist]
    split
    · split <;> rfl
    · rfl

theorem handle_text_hist_frame (cid c : Int) (u now text sp : String) (k : Option String)
    (L n : Nat) (o : Nat → Except Nat String) (s : BotState) (hc : c ≠ cid) :
    (handle_text cid u now text sp k L n o s).state.conversation_history c
      = s.conversation_history c := by
  have hframe := ensureTextConv_hist_frame cid c u now s hc
  simp only [handle_text, List.dropLast_concat]
  split
  · simp [BotState.setHist, hc, hframe]
  · split
    · split <;> simp [BotState.setHist, hc, hframe]
    · simp [BotState.setHist, hc, hframe]

/-! ## Claim theorems -/

/-- C4: when every attempt against the remote completion service fails,
exactly `retry_attempts` calls are made to the service and exactly
`retry_attempts - 1` fixed-length delays occur (one between each
consecutive pair of attempts, none after the final attempt). -/
theorem retry_bound_on_failure (k um sp : String) (h : List Turn) (L n : Nat)
    (o : Nat → Except Nat String) (hk : k ≠ "")
    (hfail : ∀ i, 1 ≤ i → i ≤ n → ∃ e, o i = Except.error e) :
    (get_llm_response (some k) um sp h L n o).calls = n
    ∧ (get_llm_response (some k) um sp h L n o).sleeps = n - 1 := by
  have hall := attemptList_all_fail o n hfail
  constructor
  · rw [get_llm_response_calls k um sp h L n o hk,
      retryLoop_calls_all_fail _ _ hall, attemptList_length]
  · rw [get_llm_response_sleeps k um sp h L n o hk,
      retryLoop_sleeps_all_fail _ _ hall, attemptList_length]

/-- Witness for C4 at a concrete input: three failing attempts make three
calls and two delays. -/
theorem retry_bound_on_failure_witness :
    (get_llm_response (some "k") "hi" "sys" [] 10 3 (fun _ => Except.error 7)).calls = 3
    ∧ (get_llm_response (some "k") "hi" "sys" [] 10 3 (fun _ => Except.error 7)).sleeps = 2 :=
  retry_bound_on_failure "k" "hi" "sys" [] 10 3 (fun _ => Except.error 7)
    (by decide) (fun i h1 h2 => ⟨7, rfl⟩)

/-- C5: if all `retry_attempts` attempts fail, `get_llm_response` raises
exactly the error encountered on the last attempt and never returns a
reply text. -/
theorem exhausted_raises_last_error (k um sp : String) (h : List Turn) (L n : Nat)
    (o : Nat → Except Nat String) (e : Nat) (hk : k ≠ "") (hn : 1 ≤ n)
    (hfail : ∀ i, 1 ≤ i → i ≤ n → ∃ c, o i = Except.error c)
    (hlast : o n = Except.error e) :
    (get_llm_response (some k) um sp h L n o).result = Except.error (PyError.apiError e)
    ∧ ∀ t : String, (get_llm_response (some k) um sp h L n o).result ≠ Except.ok t := by
  have hres : (get_llm_response (some k) um sp h L n o).result
      = Except.error (PyError.apiError e) := by
    apply get_llm_response_result_err k um sp h L n o e hk
    apply retryLoop_result_all_fail _ _ e (attemptList_all_fail o n hfail)
    rw [attemptList_getLast o n hn, hlast]
  exact ⟨hres, fun t ht => by rw [hres] at ht; exact Except.noConfusion ht⟩

/-- Witness for C5 at a concrete input: two attempts failing with codes 1
and 2 surface the error of attempt 2. -/
theorem exhausted_raises_last_error_witness :
    (get_llm_response (some "k") "hi" "sys" [] 10 2 (fun i => Except.error i)).result
      = Except.error (PyError.apiError 2)
    ∧ ∀ t : String,
      (get_llm_response (some "k") "hi" "sys" [] 10 2 (fun i => Except.error i)).result
        ≠ Except.ok t :=
  exhausted_raises_last_error "k" "hi" "sys" [] 10 2 (fun i => Except.error i) 2
    (by decide) (by decide) (fun i h1 h2 => ⟨i, rfl⟩) rfl

/-- C10: `get_llm_response` never mutates the history list passed to it —
the statement-by-statement threading of the `history` variable returns it
unchanged, whether the call succeeds or fails. -/
theorem llm_preserves_history (k : Option String) (um sp : String) (h : List Turn)
    (L n : Nat) (o : Nat → Except Nat String) :
    (get_llm_response k um sp h L n o).historyAfter = h
    ∧ (buildRun um sp h L).history = h := by
  refine ⟨?_, buildRun_history um sp h L⟩
  cases k with
  | none => rfl
  | some key =>
    by_cases hkey : key = ""
    · simp [get_llm_response, get_llm_client, hkey]
    · simp [get_llm_response, get_llm_client, hkey, buildRun_history]

/-- Counterexample to C3 as stated: with `history_limit = 0` and one prior
history turn, Python's slice `history[-0:]` is the whole list, so the
request carries 1 history turn instead of `min(1, 0) = 0` — the message
list has 3 entries, not the claimed `1 + min(H, L) + 1 = 2`. -/
theorem truncation_limit_zero_ctrex :
    (get_llm_response (some "k") "e" "sp" [⟨Role.user, "a"⟩] 0 1
        (fun _ => Except.ok "r")).messages
      = [⟨Role.system, "sp"⟩, ⟨Role.user, "a"⟩, ⟨Role.user, "e"⟩]
    ∧ ¬((get_llm_response (some "k") "e" "sp" [⟨Role.user, "a"⟩] 0 1
        (fun _ => Except.ok "r")).messages.length
          = 1 + min ([⟨Role.user, "a"⟩] : List Turn).length 0 + 1) := by
  constructor
  · rfl
  · decide

/-- C3 (amended: for a configured `history_limit ≥ 1`; with
`history_limit = 0` and nonempty history the slice `history[-0:]` sends
the whole history instead of none): the message list sent by `handle_text`
is exactly the system prompt, the `min(H, L)` most recent prior history
turns in original order, then the current user message as the final user
turn, never duplicated from history. -/
theorem truncation_window (cid : Int) (u now text sp k : String) (L n : Nat)
    (o : Nat → Except Nat String) (s : BotState) (h : List Turn)
    (hk : k ≠ "") (hL : 1 ≤ L) (hh : s.conversation_history cid = some h) :
    (handle_text cid u now text sp (some k) L n o s).llm.messages
      = ⟨Role.system, sp⟩ :: (h.drop (h.length - min h.length L) ++ [⟨Role.user, text⟩])
    ∧ (h.drop (h.length - min h.length L)).length = min h.length L := by
  have hens : ensureTextConv cid u now s = s :=
    ensureTextConv_of_some cid u now s (by rw [hh]; rfl)
  constructor
  · rw [handle_text_llm, hens, hh, Option.getD_some,
      get_llm_response_messages k text sp h L n o hk]
    exact buildMessages_window text sp h L hL
  · have hmin : min h.length L ≤ h.length := Nat.min_le_left _ _
    rw [List.length_drop]
    omega

/-- Witness for C3 (amended) at a concrete input: prior history
`[U:"a", A:"b"]` with limit 1 sends `[system, A:"b", U:"e"]`. -/
theorem truncation_window_witness :
    (handle_text 1 "u" "t0" "e" "sp" (some "k") 1 1 (fun _ => Except.ok "r")
        (BotState.empty.setHist 1 (some [⟨Role.user, "a"⟩, ⟨Role.assistant, "b"⟩]))).llm.messages
      = ⟨Role.system, "sp"⟩
          :: (([⟨Role.user, "a"⟩, ⟨Role.assistant, "b"⟩] : List Turn).drop
              (([⟨Role.user, "a"⟩, ⟨Role.assistant, "b"⟩] : List Turn).length
                - min ([⟨Role.user, "a"⟩, ⟨Role.assistant, "b"⟩] : List Turn).length 1)
            ++ [⟨Role.user, "e"⟩])
    ∧ (([⟨Role.user, "a"⟩, ⟨Role.assistant, "b"⟩] : List Turn).drop
          (([⟨Role.user, "a"⟩, ⟨Role.assistant, "b"⟩] : List Turn).length
            - min ([⟨Role.user, "a"⟩, ⟨Role.assistant, "b"⟩] : List Turn).length 1)).length
        = min ([⟨Role.user, "a"⟩, ⟨Role.assistant, "b"⟩] : List Turn).length 1 :=
  truncation_window 1 "u" "t0" "e" "sp" "k" 1 1 (fun _ => Except.ok "r")
    (BotState.empty.setHist 1 (some [⟨Role.user, "a"⟩, ⟨Role.assistant, "b"⟩]))
    [⟨Role.user, "a"⟩, ⟨Role.assistant, "b"⟩]
    (by decide) (by decide) (by simp [BotState.empty, BotState.setHist])

/-- C1: if the completion call fails after exhausting its retries, the
conversation's history after `handle_text`'s error path equals the history
from before the user's message was provisionally appended — the
provisional `User` turn is removed and no net change remains. -/
theorem rollback_restores_history (cid : Int) (u now text sp : String)
    (k : Option String) (L n : Nat) (o : Nat → Except Nat String) (s : BotState)
    (e : PyError)
    (hfail : (handle_text cid u now text sp k L n o s).llm.result = Except.error e) :
    (handle_text cid u now text sp k L n o s).state.conversation_history cid
      = (ensureTextConv cid u now s).conversation_history cid
    ∧ (handle_text cid u now text sp k L n o s).state.conversation_history cid
      = some ((s.conversation_history cid).getD []) := by
  rw [handle_text_llm] at hfail
  have hmain := handle_text_hist_of_error cid u now text sp k L n o s e hfail
  exact ⟨hmain, by rw [hmain, ensureTextConv_hist_self]⟩

/-- Witness for C1 at a concrete input: one failing attempt against the
empty store leaves the (freshly created, empty) history unchanged. -/
theorem rollback_restores_history_witness :
    (handle_text 1 "u" "t0" "hi" "sp" (some "k") 10 1 (fun _ => Except.error 0)
        BotState.empty).state.conversation_history 1
      = (ensureTextConv 1 "u" "t0" BotState.empty).conversation_history 1
    ∧ (handle_text 1 "u" "t0" "hi" "sp" (some "k") 10 1 (fun _ => Except.error 0)
        BotState.empty).state.conversation_history 1
      = some ((BotState.empty.conversation_history 1).getD []) :=
  rollback_restores_history 1 "u" "t0" "hi" "sp" (some "k") 10 1
    (fun _ => Except.error 0) BotState.empty (PyError.apiError 0) (by decide)

/-- C2: when the completion call succeeds, the conversation's history grows
by exactly two turns relative to its state before the incoming message —
the `User` turn with the incoming text, then the `Assistant` turn with the
returned reply, in that order — and the reply is the one answered. -/
theorem commit_appends_two (cid : Int) (u now text sp : String) (k : Option String)
    (L n : Nat) (o : Nat → Except Nat String) (s : BotState) (reply : String)
    (hok : (handle_text cid u now text sp k L n o s).llm.result = Except.ok reply) :
    (handle_text cid u now text sp k L n o s).state.conversation_history cid
      = some (((s.conversation_history cid).getD [])
          ++ [⟨Role.user, text⟩, ⟨Role.assistant, reply⟩])
    ∧ (handle_text cid u now text sp k L n o s).reply = reply := by
  rw [handle_text_llm] at hok
  constructor
  · rw [handle_text_hist_of_ok cid u now text sp k L n o s reply hok,
      ensureTextConv_hist_self, Option.getD_some]
  · exact handle_text_reply_of_ok cid u now text sp k L n o s reply hok

/-- Witness for C2 at a concrete input: a successful reply `"yo"` commits
`[User "hi", Assistant "yo"]` onto the fresh empty history. -/
theorem commit_appends_two_witness :
    (handle_text 1 "u" "t0" "hi" "sp" (some "k") 10 1 (fun _ => Except.ok "yo")
        BotState.empty).state.conversation_history 1
      = some (((BotState.empty.conversation_history 1).getD [])
          ++ [⟨Role.user, "hi"⟩, ⟨Role.assistant, "yo"⟩])
    ∧ (handle_text 1 "u" "t0" "hi" "sp" (some "k") 10 1 (fun _ => Except.ok "yo")
        BotState.empty).reply = "yo" :=
  commit_appends_two 1 "u" "t0" "hi" "sp" (some "k") 10 1 (fun _ => Except.ok "yo")
    BotState.empty "yo" (by decide)

/-- C6: clearing a conversation is idempotent and always confirmed — for any
(well-formed) store state, the clear command answers the same fixed
confirmation whether or not a record existed, deletes both the history and
the metadata when one did, and only the returned log flag distinguishes
the nothing-existed case. -/
theorem clear_always_confirmed (cid : Int) (s : BotState) (hwf : WellFormed s) :
    ∃ s2 : BotState, ∃ deleted : Bool,
      cmd_clear cid s = Except.ok (s2, clearReply, deleted)
      ∧ deleted = (s.conversation_history cid).isSome
      ∧ s2.conversation_history cid = none
      ∧ s2.conversation_meta cid = none := by
  cases hh : s.conversation_history cid with
  | none =>
    refine ⟨s, false, ?_, ?_, hh, ?_⟩
    · simp [cmd_clear, hh]
    · simp [hh]
    · cases hm : s.conversation_meta cid with
      | none => rfl
      | some m =>
        exfalso
        have hs := (hwf cid).mpr (by simp [hm])
        rw [hh] at hs
        simp at hs
  | some h =>
    cases hm : s.conversation_meta cid with
    | none =>
      exfalso
      have hs := (hwf cid).mp (by simp [hh])
      rw [hm] at hs
      simp at hs
    | some m =>
      refine ⟨(s.setHist cid none).setMeta cid none, true, ?_, ?_, ?_, ?_⟩
      · simp [cmd_clear, hh, hm]
      · simp [hh]
      · simp [BotState.setHist, BotState.setMeta]
      · simp [BotState.setMeta]

/-- Witness for C6 at a concrete input: clearing the empty store (no record
for id 0) still answers the confirmation, with the log flag `false`. -/
theorem clear_always_confirmed_witness :
    ∃ s2 : BotState, ∃ deleted : Bool,
      cmd_clear 0 BotState.empty = Except.ok (s2, clearReply, deleted)
      ∧ deleted = (BotState.empty.conversation_history 0).isSome
      ∧ s2.conversation_history 0 = none
      ∧ s2.conversation_meta 0 = none :=
  clear_always_confirmed 0 BotState.empty (fun c => by simp [BotState.empty])

/-- C7: conversation creation is idempotent on an existing id — `/start`
leaves the whole state unchanged and a text message leaves the metadata
(owner label, creation timestamp) unchanged and only extends the existing
history; a new empty record carrying the owner label and the current time
is created when the id is unseen (here: from the empty store). -/
theorem creation_idempotent (cid : Int) (u2 now2 text sp : String)
    (k : Option String) (L n : Nat) (o : Nat → Except Nat String) (s : BotState)
    (h : List Turn) (m : ConvMeta)
    (hm : s.conversation_meta cid = some m)
    (hh : s.conversation_history cid = some h) :
    (cmd_start cid u2 now2 s).1 = s
    ∧ (handle_text cid u2 now2 text sp k L n o s).state.conversation_meta cid = some m
    ∧ h <+: (((handle_text cid u2 now2 text sp k L n o s).state.conversation_history cid).getD [])
    ∧ (cmd_start cid u2 now2 BotState.empty).1.conversation_meta cid = some ⟨u2, now2⟩
    ∧ (cmd_start cid u2 now2 BotState.empty).1.conversation_history cid = some []
    ∧ (handle_text cid u2 now2 text sp k L n o BotState.empty).state.conversation_meta cid
        = some ⟨u2, now2⟩ := by
  have hens : ensureTextConv cid u2 now2 s = s :=
    ensureTextConv_of_some cid u2 now2 s (by rw [hh]; rfl)
  refine ⟨?_, ?_, ?_, ?_, ?_, ?_⟩
  · simp [cmd_start, hm]
  · rw [handle_text_meta_eq, hens, hm]
  · rcases hr : (get_llm_response k text sp
        (((ensureTextConv cid u2 now2 s).conversation_history cid).getD []) L n o).result with
      e | reply
    · rw [handle_text_hist_of_error cid u2 now2 text sp k L n o s e hr, hens, hh,
        Option.getD_some]
    · rw [handle_text_hist_of_ok cid u2 now2 text sp k L n o s reply hr, Option.getD_some,
        hens, hh, Option.getD_some]
      exact ⟨_, rfl⟩
  · simp [cmd_start, BotState.empty, BotState.setHist, BotState.setMeta]
  · simp [cmd_start, BotState.empty, BotState.setHist, BotState.setMeta]
  · rw [handle_text_meta_eq]
    exact ensureTextConv_meta_of_none cid u2 now2 BotState.empty rfl

/-- Witness for C7 at a concrete input: a store holding one conversation
with one turn; `/start` and a text message leave its record intact. -/
theorem creation_idempotent_witness :
    (cmd_start 1 "bob" "t1"
        ((BotState.empty.setHist 1 (some [⟨Role.user, "x"⟩])).setMeta 1
          (some ⟨"ann", "t0"⟩))).1
      = ((BotState.empty.setHist 1 (some [⟨Role.user, "x"⟩])).setMeta 1
          (some ⟨"ann", "t0"⟩))
    ∧ (handle_text 1 "bob" "t1" "hi" "sp" (some "k") 10 1 (fun _ => Except.ok "r")
        ((BotState.empty.setHist 1 (some [⟨Role.user, "x"⟩])).setMeta 1
          (some ⟨"ann", "t0"⟩))).state.conversation_meta 1 = some ⟨"ann", "t0"⟩
    ∧ [⟨Role.user, "x"⟩]
        <+: (((handle_text 1 "bob" "t1" "hi" "sp" (some "k") 10 1 (fun _ => Except.ok "r")
          ((BotState.empty.setHist 1 (some [⟨Role.user, "x"⟩])).setMeta 1
            (some ⟨"ann", "t0"⟩))).state.conversation_history 1).getD [])
    ∧ (cmd_start 1 "bob" "t1" BotState.empty).1.conversation_meta 1 = some ⟨"bob", "t1"⟩
    ∧ (cmd_start 1 "bob" "t1" BotState.empty).1.conversation_history 1 = some []
    ∧ (handle_text 1 "bob" "t1" "hi" "sp" (some "k") 10 1 (fun _ => Except.ok "r")
        BotState.empty).state.conversation_meta 1 = some ⟨"bob", "t1"⟩ :=
  creation_idempotent 1 "bob" "t1" "hi" "sp" (some "k") 10 1 (fun _ => Except.ok "r")
    ((BotState.empty.setHist 1 (some [⟨Role.user, "x"⟩])).setMeta 1 (some ⟨"ann", "t0"⟩))
    [⟨Role.user, "x"⟩] ⟨"ann", "t0"⟩
    (by simp [BotState.empty, BotState.setHist, BotState.setMeta])
    (by simp [BotState.empty, BotState.setHist, BotState.setMeta])

/-- Counterexample to C8 as stated: with `OPENROUTER_API_KEY` absent,
process startup succeeds (it checks only the Telegram token) and a text
request is still processed — the missing credential surfaces inside the
request as a caught per-request failure (no remote call, the ValueError,
the generic apology, the rolled-back empty history), not as a fatal
initialization error preventing construction. -/
theorem missing_key_startup_ctrex :
    bot_startup (some "tg-token") none = Except.ok ()
    ∧ (handle_text 1 "u" "t0" "hi" "sp" none 10 3 (fun _ => Except.ok "r")
        BotState.empty).llm.result = Except.error PyError.valueError
    ∧ (handle_text 1 "u" "t0" "hi" "sp" none 10 3 (fun _ => Except.ok "r")
        BotState.empty).llm.calls = 0
    ∧ (handle_text 1 "u" "t0" "hi" "sp" none 10 3 (fun _ => Except.ok "r")
        BotState.empty).reply = errorReply
    ∧ (handle_text 1 "u" "t0" "hi" "sp" none 10 3 (fun _ => Except.ok "r")
        BotState.empty).state.conversation_history 1 = some [] := by
  refine ⟨by decide, by decide, by decide, ?_, by decide⟩
  rfl

/-- C8 (amended): a missing API key makes client construction raise
`ValueError`, but the client is constructed lazily on the first completion
request, not at startup — startup checks only the Telegram token, and the
absent credential surfaces as a per-request failure: the request makes no
remote call, the handler catches the error, answers the generic apology
and rolls the provisional turn back. -/
theorem missing_key_per_request (cid : Int) (u now text sp tok : String)
    (L n : Nat) (o : Nat → Except Nat String) (s : BotState) (htok : tok ≠ "") :
    get_llm_client none = Except.error PyError.valueError
    ∧ bot_startup (some tok) none = Except.ok ()
    ∧ (handle_text cid u now text sp none L n o s).llm.result
        = Except.error PyError.valueError
    ∧ (handle_text cid u now text sp none L n o s).llm.calls = 0
    ∧ (handle_text cid u now text sp none L n o s).reply = errorReply
    ∧ (handle_text cid u now text sp none L n o s).state.conversation_history cid
        = (ensureTextConv cid u now s).conversation_history cid := by
  have hfail : (get_llm_response none text sp
      (((ensureTextConv cid u now s).conversation_history cid).getD []) L n o).result
      = Except.error PyError.valueError := rfl
  refine ⟨rfl, ?_, ?_, ?_, ?_, ?_⟩
  · simp [bot_startup, htok]
  · rw [handle_text_llm]; exact hfail
  · rw [handle_text_llm]; rfl
  · exact handle_text_reply_of_error cid u now text sp none L n o s
      PyError.valueError hfail
  · exact handle_text_hist_of_error cid u now text sp none L n o s
      PyError.valueError hfail

/-- Witness for C8 (amended) at a concrete input. -/
theorem missing_key_per_request_witness :
    get_llm_client none = Except.error PyError.valueError
    ∧ bot_startup (some "tg") none = Except.ok ()
    ∧ (handle_text 2 "u" "t0" "hi" "sp" none 10 3 (fun _ => Except.ok "r")
        BotState.empty).llm.result = Except.error PyError.valueError
    ∧ (handle_text 2 "u" "t0" "hi" "sp" none 10 3 (fun _ => Except.ok "r")
        BotState.empty).llm.calls = 0
    ∧ (handle_text 2 "u" "t0" "hi" "sp" none 10 3 (fun _ => Except.ok "r")
        BotState.empty).reply = errorReply
    ∧ (handle_text 2 "u" "t0" "hi" "sp" none 10 3 (fun _ => Except.ok "r")
        BotState.empty).state.conversation_history 2
        = (ensureTextConv 2 "u" "t0" BotState.empty).conversation_history 2 :=
  missing_key_per_request 2 "u" "t0" "hi" "sp" "tg" 10 3 (fun _ => Except.ok "r")
    BotState.empty (by decide)

/-- C9: every state reachable from the empty store through the handlers
(`/start`, `/clear`, text) has the same set of ids in the history table
and in the metadata table — no conversation has history without metadata
or metadata without history. -/
theorem tables_keys_aligned (s : BotState) (hs : Reachable s) : WellFormed s := by
  induction hs with
  | init => intro c; simp [BotState.empty]
  | start cid u now s0 hs0 ih =>
    intro c
    cases hm : s0.conversation_meta cid with
    | some m => simpa [cmd_start, hm] using ih c
    | none =>
      by_cases hc : c = cid
      · subst hc; simp [cmd_start, hm, BotState.setHist, BotState.setMeta]
      · simpa [cmd_start, hm, BotState.setHist, BotState.setMeta, hc] using ih c
  | clear cid s0 s1 reply deleted hs0 hok ih =>
    cases hh : s0.conversation_history cid with
    | none =>
      simp [cmd_clear, hh] at hok
      obtain ⟨h1, h2, h3⟩ := hok
      subst h1
      exact ih
    | some h =>
      cases hm : s0.conversation_meta cid with
      | none => simp [cmd_clear, hh, hm] at hok
      | some m =>
        simp [cmd_clear, hh, hm] at hok
        obtain ⟨h1, h2, h3⟩ := hok
        subst h1
        intro c
        by_cases hc : c = cid
        · subst hc; simp [BotState.setHist, BotState.setMeta]
        · simpa [BotState.setHist, BotState.setMeta, hc] using ih c
  | text cid u now msg sp k L n o s0 hs0 ih =>
    intro c
    by_cases hc : c = cid
    · subst hc
      have hhist : ((handle_text c u now msg sp k L n o s0).state.conversation_history
          c).isSome = true := by
        rcases hr : (get_llm_response k msg sp
            (((ensureTextConv c u now s0).conversation_history c).getD []) L n
            o).result with e | reply
        · rw [handle_text_hist_of_error c u now msg sp k L n o s0 e hr,
            ensureTextConv_hist_self]
          rfl
        · rw [handle_text_hist_of_ok c u now msg sp k L n o s0 reply hr]
          rfl
      have hmeta : ((ensureTextConv c u now s0).conversation_meta c).isSome = true := by
        cases hh : s0.conversation_history c with
        | none => rw [ensureTextConv_meta_of_none c u now s0 hh]; rfl
        | some h =>
          rw [ensureTextConv_of_some c u now s0 (by rw [hh]; rfl)]
          exact (ih c).mp (by rw [hh]; rfl)
      rw [handle_text_meta_eq]
      exact iff_of_true hhist hmeta
    · rw [handle_text_hist_frame cid c u now msg sp k L n o s0 hc,
        handle_text_meta_eq, ensureTextConv_meta_frame cid c u now s0 hc]
      exact ih c

/-- Witness for C9 at a concrete input: the empty store is reachable and
well-formed. -/
theorem tables_keys_aligned_witness : WellFormed BotState.empty :=
  tables_keys_aligned BotState.empty Reachable.init
